import Mathlib

/-!
Verification development for the automated strategy execution engine of the
CryptoTraderPro repository (file `src/server/algorithmic-trading-service.ts`).

The engine is shallow-embedded: JavaScript numbers are modelled as rationals,
stateful code as explicit state passing, thrown errors as `Option String`
error components, and the persisted store as an explicit record of tables.
An out-of-range JavaScript array access yields `undefined`, and every numeric
comparison against `undefined` is `false`; this is modelled by `jsGet`
returning `Option` and by the comparison helpers `jslt` and `jsgt`.
-/

/-- A trade signal produced by the Strategy Evaluator. -/
inductive Signal
  | buy
  | sell
deriving DecidableEq, Repr

/-- The closed enumeration of strategy kinds (`StrategyConfig.type`). -/
inductive StrategyType
  | MA_CROSSOVER
  | RSI_OVERSOLD
  | BOLLINGER_BOUNCE
deriving DecidableEq, Repr

/-- Strategy-specific numeric parameters; every field is optional and falls
back to a fixed default where it is read (JavaScript destructuring defaults). -/
structure StrategyParams where
  shortPeriod : Option Nat
  longPeriod : Option Nat
  rsiPeriod : Option Nat
  oversoldThreshold : Option ℚ
  overboughtThreshold : Option ℚ
  deviations : Option ℚ
  period : Option Nat
deriving DecidableEq, Repr

/-- The configuration passed to `startStrategy` (interface `StrategyConfig`). -/
structure StrategyConfig where
  type : StrategyType
  symbol : String
  amount : ℚ
  interval : Int
  params : StrategyParams
deriving DecidableEq, Repr

/-- One price sample (interface `PriceData`). -/
structure PriceData where
  timestamp : Nat
  price : ℚ
deriving DecidableEq, Repr

/-- Per-bot in-memory state (interface `StrategyState`). -/
structure StrategyState where
  config : StrategyConfig
  isActive : Bool
  lastCheck : Nat
  priceHistory : List PriceData
deriving DecidableEq, Repr

/-- The in-memory registry of running bots
(`private strategies: Map<string, StrategyState>`). -/
abbrev Registry := List (String × StrategyState)

/-- Lookup in the registry (JavaScript `Map.get`). -/
def mapGet (m : Registry) (k : String) : Option StrategyState :=
  (m.find? (fun e => e.1 == k)).map (fun e => e.2)

/-- Insertion into the registry (JavaScript `Map.set`): replaces the value of
an existing key in place, otherwise appends the new binding. -/
def mapSet : Registry → String → StrategyState → Registry
  | [], k, v => [(k, v)]
  | e :: rest, k, v => if e.1 == k then (k, v) :: rest else e :: mapSet rest k v

/-- The registry key for a bot: `` `${userId}-${config.symbol}` ``. -/
def strategyKey (userId : Nat) (symbol : String) : String :=
  toString userId ++ "-" ++ symbol

/-- `startStrategy(userId, config)` (lines 40 to 53 of the engine): registers
fresh per-bot state under the key and (separately modelled) kicks off the
first tick. The source performs no validation of `config` whatsoever. -/
def startStrategy (strategies : Registry) (userId : Nat) (config : StrategyConfig)
    (now : Nat) : Registry :=
  mapSet strategies (strategyKey userId config.symbol)
    { config := config, isActive := true, lastCheck := now, priceHistory := [] }

/-- JavaScript array indexing: out of range yields `undefined`, modelled as
`none`. -/
def jsGet (l : List ℚ) (i : Int) : Option ℚ :=
  if h : 0 ≤ i ∧ i.toNat < l.length then some (l.get ⟨i.toNat, h.2⟩) else none

/-- JavaScript `a < b` on possibly-`undefined` numbers: any comparison with
`undefined` is `false`. -/
def jslt (a b : Option ℚ) : Bool :=
  match a, b with
  | some x, some y => decide (x < y)
  | _, _ => false

/-- JavaScript `a > b` on possibly-`undefined` numbers. -/
def jsgt (a b : Option ℚ) : Bool :=
  match a, b with
  | some x, some y => decide (y < x)
  | _, _ => false

/-- Mean of the window of length `period` of `v` starting at index `i`. -/
def windowMeanAt (v : List ℚ) (period i : Nat) : ℚ :=
  ((v.drop i).take period).sum / (period : ℚ)

/-- Modelled from the spec: the external indicator library
(`technicalindicators`, not part of src/) computes the simple moving average —
the mean of each trailing window of length `period`, oldest window first,
one output per window (`values.length - period + 1` outputs). -/
def SMA_calculate (period : Nat) (values : List ℚ) : List ℚ :=
  (List.range (values.length + 1 - period)).map (fun i => windowMeanAt values period i)

/-- Mean of a whole window. -/
def windowMean (w : List ℚ) : ℚ :=
  w.sum / (w.length : ℚ)

/-- Population variance of a window. -/
def windowVar (w : List ℚ) : ℚ :=
  ((w.map (fun x => (x - windowMean w) ^ 2)).sum) / (w.length : ℚ)

/-- Modelled from the spec: the external indicator library test
`price < mean - deviations * sqrt variance` (the lower volatility band),
encoded inside ℚ by the equivalence valid for nonnegative `deviations` and
`variance`: the difference is positive and its square exceeds
`deviations ^ 2 * variance`. -/
def belowLowerBand (mean variance deviations price : ℚ) : Bool :=
  decide (0 < mean - price ∧ deviations ^ 2 * variance < (mean - price) ^ 2)

/-- Modelled from the spec: the external indicator library test
`price > mean + deviations * sqrt variance` (the upper volatility band),
encoded inside ℚ as for `belowLowerBand`. -/
def aboveUpperBand (mean variance deviations price : ℚ) : Bool :=
  decide (0 < price - mean ∧ deviations ^ 2 * variance < (price - mean) ^ 2)

/-- Modelled from the spec: the external indicator library RSI with Wilder
smoothing. One change per consecutive pair of values; the first average gain
and loss are plain means over the first `period` changes; later averages use
Wilder recurrence; `RSI = 100 - 100 / (1 + gain / loss)` with the zero-loss
case pinned at 100. Returns one value per sample from index `period` on. -/
def RSI_calculate (period : Nat) (values : List ℚ) : List ℚ :=
  if period = 0 then []
  else
    let changes := List.zipWith (fun a b => b - a) values (values.drop 1)
    if changes.length < period then []
    else
      let gains := changes.map (fun c => max c 0)
      let losses := changes.map (fun c => max (-c) 0)
      let g0 := (gains.take period).sum / (period : ℚ)
      let l0 := (losses.take period).sum / (period : ℚ)
      let step := fun (a x : ℚ) => (a * ((period : ℚ) - 1) + x) / (period : ℚ)
      let avgGains := (gains.drop period).scanl step g0
      let avgLosses := (losses.drop period).scanl step l0
      List.zipWith
        (fun g l => if l = 0 then (100 : ℚ) else 100 - 100 / (1 + g / l))
        avgGains avgLosses

/-- The `MA_CROSSOVER` case of `evaluateStrategy` (lines 108 to 128). -/
def maCrossoverSignal (params : StrategyParams) (prices : List ℚ) : Option Signal :=
  let shortPeriod := params.shortPeriod.getD 10
  let longPeriod := params.longPeriod.getD 20
  if prices.length < longPeriod then none
  else
    let shortMA := SMA_calculate shortPeriod prices
    let longMA := SMA_calculate longPeriod prices
    let currentShortMA := jsGet shortMA ((shortMA.length : Int) - 1)
    let previousShortMA := jsGet shortMA ((shortMA.length : Int) - 2)
    let currentLongMA := jsGet longMA ((longMA.length : Int) - 1)
    let previousLongMA := jsGet longMA ((longMA.length : Int) - 2)
    if jslt previousShortMA previousLongMA && jsgt currentShortMA currentLongMA then
      some Signal.buy
    else if jsgt previousShortMA previousLongMA && jslt currentShortMA currentLongMA then
      some Signal.sell
    else none

/-- The `RSI_OVERSOLD` case of `evaluateStrategy` (lines 130 to 144). -/
def rsiSignal (params : StrategyParams) (prices : List ℚ) : Option Signal :=
  let rsiPeriod := params.rsiPeriod.getD 14
  let oversoldThreshold := params.oversoldThreshold.getD 30
  let overboughtThreshold := params.overboughtThreshold.getD 70
  if prices.length < rsiPeriod then none
  else
    let rsiValues := RSI_calculate rsiPeriod prices
    let currentRSI := jsGet rsiValues ((rsiValues.length : Int) - 1)
    if jslt currentRSI (some oversoldThreshold) then some Signal.buy
    else if jsgt currentRSI (some overboughtThreshold) then some Signal.sell
    else none

/-- The `BOLLINGER_BOUNCE` case of `evaluateStrategy` (lines 146 to 166);
the band tests are modelled from the spec (see `belowLowerBand`). -/
def bollingerSignal (params : StrategyParams) (prices : List ℚ) : Option Signal :=
  let period := params.period.getD 20
  let deviations := params.deviations.getD 2
  if prices.length < period then none
  else
    let w := prices.drop (prices.length - period)
    let mean := windowMean w
    let variance := windowVar w
    match prices.getLast? with
    | none => none
    | some currentPrice =>
      if belowLowerBand mean variance deviations currentPrice then some Signal.buy
      else if aboveUpperBand mean variance deviations currentPrice then some Signal.sell
      else none

/-- `evaluateStrategy` (lines 104 to 170): pure mapping from per-bot state to
an optional signal. Totality of this Lean function is the never-throws part of
the evaluator contract. -/
def evaluateStrategy (strategy : StrategyState) : Option Signal :=
  let prices := strategy.priceHistory.map (fun p => p.price)
  match strategy.config.type with
  | StrategyType.MA_CROSSOVER => maCrossoverSignal strategy.config.params prices
  | StrategyType.RSI_OVERSOLD => rsiSignal strategy.config.params prices
  | StrategyType.BOLLINGER_BOUNCE => bollingerSignal strategy.config.params prices

/-- The minimum lookback each strategy kind requires before it can signal:
the guard bound of the corresponding `evaluateStrategy` case. -/
def minLookback (config : StrategyConfig) : Nat :=
  match config.type with
  | StrategyType.MA_CROSSOVER => config.params.longPeriod.getD 20
  | StrategyType.RSI_OVERSOLD => config.params.rsiPeriod.getD 14
  | StrategyType.BOLLINGER_BOUNCE => config.params.period.getD 20

/-- A row of the persisted `trading_bots` table, as read by `executeSignal`. -/
structure TradingBot where
  id : Nat
  userId : Nat
  symbol : String
  status : String
  mode : String
deriving DecidableEq, Repr

/-- A row of the `trades` table (live trade history). -/
structure TradeRecord where
  userId : Nat
  symbol : String
  amount : ℚ
  price : ℚ
  type : Signal
deriving DecidableEq, Repr

/-- A row of the `portfolio` table (live positions), keyed by user and symbol. -/
structure PortfolioPosition where
  userId : Nat
  symbol : String
  amount : ℚ
deriving DecidableEq, Repr

/-- A row of the `paper_accounts` table. -/
structure PaperAccount where
  id : Nat
  userId : Nat
  balance : ℚ
deriving DecidableEq, Repr

/-- A row of the `paper_positions` table, keyed by account and symbol. -/
structure PaperPosition where
  id : Nat
  accountId : Nat
  symbol : String
  amount : ℚ
  averagePrice : ℚ
deriving DecidableEq, Repr

/-- A row of the `bot_trades` table; `pnl` is patched onto paper sells only. -/
structure BotTrade where
  id : Nat
  botId : Nat
  symbol : String
  type : Signal
  amount : ℚ
  price : ℚ
  pnl : Option ℚ
deriving DecidableEq, Repr

/-- The persisted store (Ledger Store): every table `executeSignal` touches,
plus the id sequences backing inserted rows. `portfolioRows` embeds the
`portfolio` table. -/
structure Db where
  tradingBots : List TradingBot
  trades : List TradeRecord
  portfolioRows : List PortfolioPosition
  paperAccounts : List PaperAccount
  paperPositions : List PaperPosition
  botTrades : List BotTrade
  nextPaperPositionId : Nat
  nextBotTradeId : Nat
deriving DecidableEq, Repr

/-- `SELECT ... FROM trading_bots WHERE user_id = ? AND symbol = ? AND
status = 'active'` taking the first row (lines 180 to 183). -/
def findActiveBot (db : Db) (userId : Nat) (symbol : String) : Option TradingBot :=
  db.tradingBots.find? (fun b => b.userId == userId && b.symbol == symbol && b.status == "active")

/-- `SELECT ... FROM paper_accounts WHERE user_id = ?` taking the first row
(lines 234 to 237). -/
def findPaperAccount (db : Db) (userId : Nat) : Option PaperAccount :=
  db.paperAccounts.find? (fun a => a.userId == userId)

/-- `SELECT ... FROM paper_positions WHERE account_id = ? AND symbol = ?`
taking the first row (lines 255 to 258). -/
def findPaperPosition (db : Db) (accountId : Nat) (symbol : String) : Option PaperPosition :=
  db.paperPositions.find? (fun p => p.accountId == accountId && p.symbol == symbol)

/-- `SELECT ... FROM portfolio WHERE user_id = ? AND symbol = ?` taking the
first row (lines 207 to 210). -/
def findPortfolioPosition (db : Db) (userId : Nat) (symbol : String) : Option PortfolioPosition :=
  db.portfolioRows.find? (fun p => p.userId == userId && p.symbol == symbol)

/-- `INSERT INTO bot_trades` (lines 244 to 251); ids come from the sequence. -/
def insertBotTrade (db : Db) (botId : Nat) (symbol : String) (type : Signal)
    (amount price : ℚ) : Db :=
  { db with
    botTrades := db.botTrades ++
      [{ id := db.nextBotTradeId, botId := botId, symbol := symbol, type := type,
         amount := amount, price := price, pnl := none }],
    nextBotTradeId := db.nextBotTradeId + 1 }

/-- `UPDATE paper_accounts SET balance = ? WHERE id = ?`. -/
def setPaperBalance (db : Db) (accountId : Nat) (newBalance : ℚ) : Db :=
  { db with
    paperAccounts := db.paperAccounts.map
      (fun a => if a.id == accountId then { a with balance := newBalance } else a) }

/-- `UPDATE paper_positions SET amount = ?, average_price = ? WHERE id = ?`
(the buy-side position update, lines 282 to 289). -/
def updatePaperPositionBuy (db : Db) (posId : Nat) (newAmount newAvgPrice : ℚ) : Db :=
  { db with
    paperPositions := db.paperPositions.map
      (fun p => if p.id == posId then { p with amount := newAmount, averagePrice := newAvgPrice } else p) }

/-- `UPDATE paper_positions SET amount = ? WHERE id = ?` (the sell-side
position update, lines 322 to 328; average price untouched). -/
def updatePaperPositionSell (db : Db) (posId : Nat) (newAmount : ℚ) : Db :=
  { db with
    paperPositions := db.paperPositions.map
      (fun p => if p.id == posId then { p with amount := newAmount } else p) }

/-- `INSERT INTO paper_positions` (lines 291 to 296). -/
def insertPaperPosition (db : Db) (accountId : Nat) (symbol : String)
    (amount averagePrice : ℚ) : Db :=
  { db with
    paperPositions := db.paperPositions ++
      [{ id := db.nextPaperPositionId, accountId := accountId, symbol := symbol,
         amount := amount, averagePrice := averagePrice }],
    nextPaperPositionId := db.nextPaperPositionId + 1 }

/-- `DELETE FROM paper_positions WHERE id = ?` (lines 318 to 320). -/
def deletePaperPosition (db : Db) (posId : Nat) : Db :=
  { db with paperPositions := db.paperPositions.filter (fun p => !(p.id == posId)) }

/-- `UPDATE bot_trades SET pnl = ? WHERE id = currval('bot_trades_id_seq')`
(lines 332 to 335): patches the row carrying the last id the sequence issued. -/
def patchLastBotTradePnl (db : Db) (pnl : ℚ) : Db :=
  { db with
    botTrades := db.botTrades.map
      (fun t => if t.id == db.nextBotTradeId - 1 then { t with pnl := some pnl } else t) }

/-- `INSERT INTO trades` (line 202). -/
def insertTrade (db : Db) (userId : Nat) (symbol : String) (amount price : ℚ)
    (type : Signal) : Db :=
  { db with
    trades := db.trades ++
      [{ userId := userId, symbol := symbol, amount := amount, price := price, type := type }] }

/-- `UPDATE portfolio SET amount = ? WHERE user_id = ? AND symbol = ?`. -/
def setPortfolioAmount (db : Db) (userId : Nat) (symbol : String) (newAmount : ℚ) : Db :=
  { db with
    portfolioRows := db.portfolioRows.map
      (fun p => if p.userId == userId && p.symbol == symbol then { p with amount := newAmount } else p) }

/-- `DELETE FROM portfolio WHERE user_id = ? AND symbol = ?` (lines 215 to 217). -/
def deletePortfolioPosition (db : Db) (userId : Nat) (symbol : String) : Db :=
  { db with
    portfolioRows := db.portfolioRows.filter (fun p => !(p.userId == userId && p.symbol == symbol)) }

/-- `INSERT INTO portfolio` (lines 225 to 229). -/
def insertPortfolioPosition (db : Db) (userId : Nat) (symbol : String) (amount : ℚ) : Db :=
  { db with
    portfolioRows := db.portfolioRows ++
      [{ userId := userId, symbol := symbol, amount := amount }] }

/-- The paper branch of `executeSignal` from the point where the paper
account row has already been read (lines 243 to 337). The bot-trade record is
inserted before `db.transaction` opens; the transaction body reads positions
from the current store but uses the `paperAccount` row read by the caller
before the transaction, both for the sufficiency check and for the balance it
writes. A throw inside the transaction rolls the transaction back, so the
error result keeps the pre-transaction store, bot-trade insert included. -/
def paperSettle (db : Db) (bot : TradingBot) (paperAccount : PaperAccount)
    (config : StrategyConfig) (signal : Signal) (currentPrice : ℚ) : Db × Option String :=
  let db1 := insertBotTrade db bot.id config.symbol signal config.amount currentPrice
  let tradeValue := config.amount * currentPrice
  let txn : Except String Db :=
    let position := findPaperPosition db1 paperAccount.id config.symbol
    match signal with
    | Signal.buy =>
      if paperAccount.balance < tradeValue then
        Except.error "Insufficient paper trading balance"
      else
        let db2 := setPaperBalance db1 paperAccount.id (paperAccount.balance - tradeValue)
        match position with
        | some position =>
          let newAmount := position.amount + config.amount
          let newAvgPrice := (position.amount * position.averagePrice + tradeValue) / newAmount
          Except.ok (updatePaperPositionBuy db2 position.id newAmount newAvgPrice)
        | none =>
          Except.ok (insertPaperPosition db2 paperAccount.id config.symbol config.amount currentPrice)
    | Signal.sell =>
      match position with
      | none => Except.error "Insufficient position for paper trading sell"
      | some position =>
        if position.amount < config.amount then
          Except.error "Insufficient position for paper trading sell"
        else
          let newAmount := position.amount - config.amount
          let pnl := (currentPrice - position.averagePrice) * config.amount
          let db2 := setPaperBalance db1 paperAccount.id (paperAccount.balance + tradeValue)
          let db3 :=
            if newAmount == 0 then deletePaperPosition db2 position.id
            else updatePaperPositionSell db2 position.id newAmount
          Except.ok (patchLastBotTradePnl db3 pnl)
  match txn with
  | Except.ok dbDone => (dbDone, none)
  | Except.error e => (db1, some e)

/-- The live branch of `executeSignal` (lines 189 to 231). `orderOk` models
the outcome of the external `executeOrder` call; its failure aborts before
any store mutation. -/
def liveSettle (db : Db) (userId : Nat) (config : StrategyConfig) (signal : Signal)
    (currentPrice : ℚ) (orderOk : Bool) : Db × Option String :=
  if !orderOk then (db, some "Order execution failed")
  else
    let db1 := insertTrade db userId config.symbol config.amount currentPrice signal
    let multiplier : ℚ := if signal == Signal.buy then 1 else -1
    let db2 :=
      match findPortfolioPosition db1 userId config.symbol with
      | some position =>
        let newAmount := position.amount + multiplier * config.amount
        if newAmount == 0 then deletePortfolioPosition db1 userId config.symbol
        else setPortfolioAmount db1 userId config.symbol newAmount
      | none =>
        if signal == Signal.buy then
          insertPortfolioPosition db1 userId config.symbol config.amount
        else db1
    (db2, none)

/-- `executeSignal` (lines 172 to 345): the Settlement Engine. Returns the
resulting store paired with `some` error message when the call threw (in
which case the caller deactivates the bot). -/
def executeSignal (db : Db) (userId : Nat) (config : StrategyConfig) (signal : Signal)
    (currentPrice : ℚ) (orderOk : Bool) : Db × Option String :=
  match findActiveBot db userId config.symbol with
  | none => (db, some "No active bot found")
  | some bot =>
    if bot.mode == "live" then
      liveSettle db userId config signal currentPrice orderOk
    else
      match findPaperAccount db userId with
      | none => (db, some "Paper trading account not found")
      | some paperAccount => paperSettle db bot paperAccount config signal currentPrice

/-- What one invocation of `runStrategy` did besides updating the registry. -/
structure TickOutcome where
  appendedSample : Bool
  evaluatorCalled : Bool
  signal : Option Signal
  scheduledNext : Bool
deriving DecidableEq, Repr

/-- One invocation of `runStrategy` (lines 64 to 102), the tick of the loop.
`fetched` is the current price the Price Source produced, already coerced by
`Number(...)`: `none` models a fetch failure or a non-numeric value coercing
to NaN (ℚ has no NaN; both throw in the source, so both are the error path).
`settleFails sig` models whether the `executeSignal` call for `sig` throws.
A zero fetched price fails the `if (!currentPrice)` truthiness guard and
throws before the sample is appended. The catch block marks the state
inactive and does not schedule a next tick. -/
def runStrategyTick (strategies : Registry) (strategyKey : String)
    (fetched : Option ℚ) (settleFails : Signal → Bool) (now : Nat) :
    Registry × TickOutcome :=
  match mapGet strategies strategyKey with
  | none => (strategies, ⟨false, false, none, false⟩)
  | some strategy =>
    if !strategy.isActive then (strategies, ⟨false, false, none, false⟩)
    else
      match fetched with
      | none =>
        (mapSet strategies strategyKey { strategy with isActive := false },
         ⟨false, false, none, false⟩)
      | some currentPrice =>
        if currentPrice == 0 then
          (mapSet strategies strategyKey { strategy with isActive := false },
           ⟨false, false, none, false⟩)
        else
          let hist1 := strategy.priceHistory ++ [⟨now, currentPrice⟩]
          let hist2 := if 100 < hist1.length then hist1.tail else hist1
          let strategy1 := { strategy with priceHistory := hist2 }
          match evaluateStrategy strategy1 with
          | some sig =>
            if settleFails sig then
              (mapSet strategies strategyKey { strategy1 with isActive := false },
               ⟨true, true, some sig, false⟩)
            else
              (mapSet strategies strategyKey strategy1, ⟨true, true, some sig, true⟩)
          | none =>
            (mapSet strategies strategyKey strategy1, ⟨true, true, none, true⟩)

/-- Two paper settlements for the same user whose pre-transaction account
reads both happen before either transaction commits — an interleaving the
event-loop model permits, because in `executeSignal` the `paper_accounts`
select and the `bot_trades` insert run outside `db.transaction` and every
balance the transaction checks or writes comes from that earlier read.
Returns the final store and each settlement's error component. -/
def interleavedPaperBuys (db : Db) (userId : Nat) (config : StrategyConfig)
    (price : ℚ) : Db × Option String × Option String :=
  match findActiveBot db userId config.symbol, findPaperAccount db userId with
  | some bot, some acct =>
    let rA := paperSettle db bot acct config Signal.buy price
    let rB := paperSettle rA.1 bot acct config Signal.buy price
    (rB.1, rA.2, rB.2)
  | _, _ => (db, some "No active bot found", some "No active bot found")

theorem mapGet_mapSet_self (m : Registry) (k : String) (v : StrategyState) :
    mapGet (mapSet m k v) k = some v := by
  induction m with
  | nil => simp [mapSet, mapGet, List.find?]
  | cons e rest ih =>
    cases hek : (e.1 == k) with
    | true => simp [mapSet, hek, mapGet, List.find?]
    | false =>
      simp only [mapSet, hek, Bool.false_eq_true, if_false]
      simpa [mapGet, List.find?, hek] using ih

theorem filter_keyed_nil (m : Registry) (k : String) (h : k ∉ m.map Prod.fst) :
    m.filter (fun e => e.1 == k) = [] := by
  induction m with
  | nil => rfl
  | cons e rest ih =>
    simp only [List.map_cons, List.mem_cons, not_or] at h
    have he : (e.1 == k) = false := by
      simpa [beq_iff_eq] using fun hh => h.1 hh.symm
    simp [List.filter, he, ih h.2]

theorem mem_keys_mapSet {m : Registry} {k x : String} {v : StrategyState}
    (h : x ∈ (mapSet m k v).map Prod.fst) : x ∈ m.map Prod.fst ∨ x = k := by
  induction m with
  | nil =>
    simp [mapSet] at h
    exact Or.inr h
  | cons e rest ih =>
    cases hek : (e.1 == k) with
    | true =>
      simp only [mapSet, hek, if_true, List.map_cons, List.mem_cons] at h
      rcases h with h | h
      · exact Or.inr h
      · exact Or.inl (by rw [List.map_cons]; exact List.mem_cons_of_mem _ h)
    | false =>
      simp only [mapSet, hek, Bool.false_eq_true, if_false, List.map_cons,
        List.mem_cons] at h
      rcases h with h | h
      · exact Or.inl (by simp [h])
      · rcases ih h with h | h
        · exact Or.inl (by rw [List.map_cons]; exact List.mem_cons_of_mem _ h)
        · exact Or.inr h

theorem nodup_keys_mapSet {m : Registry} (k : String) (v : StrategyState)
    (hnd : (m.map Prod.fst).Nodup) : ((mapSet m k v).map Prod.fst).Nodup := by
  induction m with
  | nil => simp [mapSet]
  | cons e rest ih =>
    simp only [List.map_cons, List.nodup_cons] at hnd
    cases hek : (e.1 == k) with
    | true =>
      have hk : e.1 = k := by simpa [beq_iff_eq] using hek
      simp only [mapSet, hek, if_true, List.map_cons, List.nodup_cons]
      exact ⟨hk ▸ hnd.1, hnd.2⟩
    | false =>
      have hk : e.1 ≠ k := by simpa [beq_iff_eq] using hek
      simp only [mapSet, hek, Bool.false_eq_true, if_false, List.map_cons,
        List.nodup_cons]
      refine ⟨fun hmem => ?_, ih hnd.2⟩
      rcases mem_keys_mapSet hmem with h | h
      · exact hnd.1 h
      · exact hk h

theorem filter_mapSet_self (m : Registry) (k : String) (v : StrategyState)
    (hnd : (m.map Prod.fst).Nodup) :
    (mapSet m k v).filter (fun e => e.1 == k) = [(k, v)] := by
  induction m with
  | nil => simp [mapSet, List.filter]
  | cons e rest ih =>
    simp only [List.map_cons, List.nodup_cons] at hnd
    cases hek : (e.1 == k) with
    | true =>
      have hk : e.1 = k := by simpa [beq_iff_eq] using hek
      simp only [mapSet, hek, if_true, List.filter]
      simp only [beq_self_eq_true]
      exact congrArg _ (filter_keyed_nil rest k (hk ▸ hnd.1))
    | false =>
      simp only [mapSet, hek, Bool.false_eq_true, if_false, List.filter, hek]
      exact ih hnd.2

/-- Parameter record with every optional field absent. -/
def noParams : StrategyParams :=
  { shortPeriod := none, longPeriod := none, rsiPeriod := none,
    oversoldThreshold := none, overboughtThreshold := none,
    deviations := none, period := none }

/-- A configuration violating both validity conditions of claim C2:
non-positive interval and empty symbol. -/
def invalidConfig : StrategyConfig :=
  { type := StrategyType.MA_CROSSOVER, symbol := "", amount := 1, interval := 0,
    params := noParams }

/-- C2 counterexample: calling `startStrategy` with interval 0 and an empty
symbol does not reject — it registers fresh per-bot state for the key, so the
claimed synchronous validation does not exist in the code. -/
theorem startStrategy_no_validation_cex :
    mapGet (startStrategy [] 7 invalidConfig 0) (strategyKey 7 "") =
      some { config := invalidConfig, isActive := true, lastCheck := 0,
             priceHistory := [] } := by
  decide

/-- C2 (amended): `startStrategy` performs no validation at all — for every
configuration, including one whose interval is not a positive integer or
whose symbol is empty, the call succeeds and registers fresh per-bot state
(empty price-history buffer, active) under the key, after which the loop is
started. -/
theorem startStrategy_registers_any_config (r : Registry) (userId : Nat)
    (config : StrategyConfig) (now : Nat) :
    mapGet (startStrategy r userId config now) (strategyKey userId config.symbol) =
      some { config := config, isActive := true, lastCheck := now,
             priceHistory := [] } :=
  mapGet_mapSet_self r _ _

/-- C3: for every strategy kind, evaluating with a price history shorter than
that kind's minimum lookback returns no signal; the evaluator is a total Lean
function, so it cannot throw. -/
theorem evaluateStrategy_short_history (s : StrategyState)
    (h : s.priceHistory.length < minLookback s.config) :
    evaluateStrategy s = none := by
  unfold minLookback at h
  unfold evaluateStrategy
  cases htype : s.config.type <;>
    rw [htype] at h <;>
    simp [maCrossoverSignal, rsiSignal, bollingerSignal, h]

/-- A bot state with an empty price history, used as the concrete input of
witnesses. -/
def exShortState : StrategyState :=
  { config := { type := StrategyType.MA_CROSSOVER, symbol := "BTC", amount := 1,
                interval := 1000, params := noParams },
    isActive := true, lastCheck := 0, priceHistory := [] }

theorem evaluateStrategy_short_history_witness :
    exShortState.priceHistory.length < minLookback exShortState.config ∧
      evaluateStrategy exShortState = none :=
  ⟨by decide, evaluateStrategy_short_history exShortState (by decide)⟩

/-- C8: two sequential `startStrategy` calls for the same user and symbol
leave exactly one registry entry for that key, holding the second call's
fresh state (empty buffer, active). -/
theorem startStrategy_twice_single_entry (r : Registry) (userId : Nat)
    (c1 c2 : StrategyConfig) (t1 t2 : Nat)
    (hnd : (r.map Prod.fst).Nodup) (hsym : c1.symbol = c2.symbol) :
    ((startStrategy (startStrategy r userId c1 t1) userId c2 t2).filter
        (fun e => e.1 == strategyKey userId c2.symbol)).length = 1
    ∧ mapGet (startStrategy (startStrategy r userId c1 t1) userId c2 t2)
        (strategyKey userId c2.symbol) =
      some { config := c2, isActive := true, lastCheck := t2, priceHistory := [] } := by
  constructor
  · unfold startStrategy
    rw [filter_mapSet_self]
    · rfl
    · rw [hsym] at *
      exact nodup_keys_mapSet _ _ hnd
  · exact mapGet_mapSet_self _ _ _

/-- Two arbitrary configurations sharing a symbol, used by the C8 witness. -/
def exCfgA : StrategyConfig :=
  { type := StrategyType.MA_CROSSOVER, symbol := "BTC", amount := 1,
    interval := 1000, params := noParams }

/-- Second configuration for the C8 witness, same symbol as `exCfgA`. -/
def exCfgB : StrategyConfig :=
  { type := StrategyType.RSI_OVERSOLD, symbol := "BTC", amount := 2,
    interval := 2000, params := noParams }

theorem startStrategy_twice_single_entry_witness :
    (([] : Registry).map Prod.fst).Nodup ∧ exCfgA.symbol = exCfgB.symbol ∧
    (((startStrategy (startStrategy [] 1 exCfgA 5) 1 exCfgB 9).filter
        (fun e => e.1 == strategyKey 1 exCfgB.symbol)).length = 1
      ∧ mapGet (startStrategy (startStrategy [] 1 exCfgA 5) 1 exCfgB 9)
          (strategyKey 1 exCfgB.symbol) =
        some { config := exCfgB, isActive := true, lastCheck := 9, priceHistory := [] }) :=
  ⟨by decide, by decide,
    startStrategy_twice_single_entry [] 1 exCfgA exCfgB 5 9 (by decide) (by decide)⟩

/-- C10: a tick whose fetched price is the number 0 is handled exactly like a
price-fetch failure: identical result to the `none` fetch, the state is
marked inactive, no sample is appended, the evaluator is not called, and no
next tick is scheduled — a legitimately zero price permanently stops the bot. -/
theorem zero_price_stops_bot (r : Registry) (k : String) (s : StrategyState)
    (f : Signal → Bool) (now : Nat)
    (hget : mapGet r k = some s) (hact : s.isActive = true) :
    runStrategyTick r k (some 0) f now = runStrategyTick r k none f now
    ∧ runStrategyTick r k (some 0) f now =
        (mapSet r k { s with isActive := false }, ⟨false, false, none, false⟩) := by
  constructor <;> simp [runStrategyTick, hget, hact]

/-- A one-bot registry used by the C10 witness. -/
def exRegistry : Registry := [(strategyKey 1 "BTC", exShortState)]

theorem zero_price_stops_bot_witness :
    mapGet exRegistry (strategyKey 1 "BTC") = some exShortState ∧
    exShortState.isActive = true ∧
    (runStrategyTick exRegistry (strategyKey 1 "BTC") (some 0) (fun _ => false) 3 =
        runStrategyTick exRegistry (strategyKey 1 "BTC") none (fun _ => false) 3
      ∧ runStrategyTick exRegistry (strategyKey 1 "BTC") (some 0) (fun _ => false) 3 =
        (mapSet exRegistry (strategyKey 1 "BTC") { exShortState with isActive := false },
         ⟨false, false, none, false⟩)) :=
  ⟨by decide, by decide,
    zero_price_stops_bot exRegistry (strategyKey 1 "BTC") exShortState
      (fun _ => false) 3 (by decide) (by decide)⟩

theorem find?_map_of_pred_eq {α : Type} (l : List α) (p : α → Bool) (f : α → α)
    (hf : ∀ a, p (f a) = p a) :
    (l.map f).find? p = (l.find? p).map f := by
  induction l with
  | nil => rfl
  | cons a rest ih =>
    cases h : p a with
    | true => simp [List.find?, hf, h]
    | false => simp [List.find?, hf, h, ih]

theorem find?_append_of_none {α : Type} (l1 l2 : List α) (p : α → Bool)
    (h : l1.find? p = none) : (l1 ++ l2).find? p = l2.find? p := by
  induction l1 with
  | nil => rfl
  | cons a rest ih =>
    cases hp : p a with
    | true => simp [List.find?, hp] at h
    | false =>
      simp only [List.find?, hp, List.cons_append] at h ⊢
      exact ih h

theorem find?_filter_none {α : Type} (l : List α) (p q : α → Bool)
    (h : ∀ a ∈ l, p a = true → q a = false) :
    (l.filter q).find? p = none := by
  induction l with
  | nil => rfl
  | cons a rest ih =>
    have hrest : ∀ b ∈ rest, p b = true → q b = false :=
      fun b hb => h b (List.mem_cons_of_mem a hb)
    cases hq : q a with
    | false => simpa [List.filter, hq] using ih hrest
    | true =>
      have hp : p a = false := by
        cases hpa : p a with
        | false => rfl
        | true => rw [h a (List.mem_cons_self a rest) hpa] at hq; cases hq
      simpa [List.filter, hq, List.find?, hp] using ih hrest

theorem findPaperPosition_insertBotTrade (db : Db) (b : Nat) (s : String) (t : Signal)
    (a p : ℚ) (ai : Nat) (sym : String) :
    findPaperPosition (insertBotTrade db b s t a p) ai sym = findPaperPosition db ai sym := rfl

theorem findPaperAccount_insertBotTrade (db : Db) (b : Nat) (s : String) (t : Signal)
    (a p : ℚ) (u : Nat) :
    findPaperAccount (insertBotTrade db b s t a p) u = findPaperAccount db u := rfl

theorem findPaperAccount_setPaperBalance (db : Db) (i : Nat) (b : ℚ) (u : Nat) :
    findPaperAccount (setPaperBalance db i b) u =
      (findPaperAccount db u).map
        (fun a => if a.id == i then { a with balance := b } else a) := by
  unfold findPaperAccount setPaperBalance
  exact find?_map_of_pred_eq _ _ _ (fun a => by split <;> rfl)

theorem findPaperPosition_setPaperBalance (db : Db) (i : Nat) (b : ℚ) (ai : Nat)
    (sym : String) :
    findPaperPosition (setPaperBalance db i b) ai sym = findPaperPosition db ai sym := rfl

theorem findPaperAccount_updatePaperPositionBuy (db : Db) (pid : Nat) (na nap : ℚ)
    (u : Nat) :
    findPaperAccount (updatePaperPositionBuy db pid na nap) u = findPaperAccount db u := rfl

theorem findPaperAccount_updatePaperPositionSell (db : Db) (pid : Nat) (na : ℚ)
    (u : Nat) :
    findPaperAccount (updatePaperPositionSell db pid na) u = findPaperAccount db u := rfl

theorem findPaperAccount_insertPaperPosition (db : Db) (ai : Nat) (sym : String)
    (a ap : ℚ) (u : Nat) :
    findPaperAccount (insertPaperPosition db ai sym a ap) u = findPaperAccount db u := rfl

theorem findPaperAccount_deletePaperPosition (db : Db) (pid u : Nat) :
    findPaperAccount (deletePaperPosition db pid) u = findPaperAccount db u := rfl

theorem findPaperAccount_patchLastBotTradePnl (db : Db) (pnl : ℚ) (u : Nat) :
    findPaperAccount (patchLastBotTradePnl db pnl) u = findPaperAccount db u := rfl

theorem findPaperPosition_patchLastBotTradePnl (db : Db) (pnl : ℚ) (ai : Nat)
    (sym : String) :
    findPaperPosition (patchLastBotTradePnl db pnl) ai sym = findPaperPosition db ai sym := rfl

theorem findPaperPosition_updatePaperPositionBuy (db : Db) (pid : Nat) (na nap : ℚ)
    (ai : Nat) (sym : String) :
    findPaperPosition (updatePaperPositionBuy db pid na nap) ai sym =
      (findPaperPosition db ai sym).map
        (fun p => if p.id == pid then { p with amount := na, averagePrice := nap } else p) := by
  unfold findPaperPosition updatePaperPositionBuy
  exact find?_map_of_pred_eq _ _ _ (fun a => by split <;> rfl)

theorem findPaperPosition_updatePaperPositionSell (db : Db) (pid : Nat) (na : ℚ)
    (ai : Nat) (sym : String) :
    findPaperPosition (updatePaperPositionSell db pid na) ai sym =
      (findPaperPosition db ai sym).map
        (fun p => if p.id == pid then { p with amount := na } else p) := by
  unfold findPaperPosition updatePaperPositionSell
  exact find?_map_of_pred_eq _ _ _ (fun a => by split <;> rfl)

/-- If the settlement resolved a bot in paper mode and an account row, the
Settlement Engine continues into `paperSettle` with that pre-read account. -/
theorem executeSignal_paper_eq (db : Db) (userId : Nat) (config : StrategyConfig)
    (signal : Signal) (price : ℚ) (orderOk : Bool) (bot : TradingBot)
    (acct : PaperAccount)
    (hbot : findActiveBot db userId config.symbol = some bot)
    (hmode : bot.mode = "paper")
    (hacct : findPaperAccount db userId = some acct) :
    executeSignal db userId config signal price orderOk =
      paperSettle db bot acct config signal price := by
  unfold executeSignal
  rw [hbot]
  simp only [hmode, hacct]
  rfl

/-- C5: a paper buy with sufficient balance debits the balance by
`tradeValue = amount * currentPrice`; an existing position row for the
account and symbol is updated to quantity `oldQty + amount` with average
price `(oldQty * oldAvgPrice + tradeValue) / (oldQty + amount)`; with no
existing row a fresh one is inserted with quantity `amount` and average
price `currentPrice`. -/
theorem paper_buy_settlement (db : Db) (userId : Nat) (config : StrategyConfig)
    (price : ℚ) (bot : TradingBot) (acct : PaperAccount)
    (hbot : findActiveBot db userId config.symbol = some bot)
    (hmode : bot.mode = "paper")
    (hacct : findPaperAccount db userId = some acct)
    (hbal : ¬ acct.balance < config.amount * price) :
    (executeSignal db userId config Signal.buy price true).2 = none
    ∧ findPaperAccount (executeSignal db userId config Signal.buy price true).1 userId =
        some { acct with balance := acct.balance - config.amount * price }
    ∧ findPaperPosition (executeSignal db userId config Signal.buy price true).1
        acct.id config.symbol =
      some (match findPaperPosition db acct.id config.symbol with
        | some pos =>
          { pos with
              amount := pos.amount + config.amount,
              averagePrice := (pos.amount * pos.averagePrice + config.amount * price) /
                (pos.amount + config.amount) }
        | none =>
          { id := db.nextPaperPositionId, accountId := acct.id, symbol := config.symbol,
            amount := config.amount, averagePrice := price }) := by
  rw [executeSignal_paper_eq db userId config Signal.buy price true bot acct hbot hmode hacct]
  simp only [paperSettle, findPaperPosition_insertBotTrade, if_neg hbal]
  cases hpos : findPaperPosition db acct.id config.symbol with
  | some pos =>
    refine ⟨rfl, ?_, ?_⟩
    · rw [findPaperAccount_updatePaperPositionBuy, findPaperAccount_setPaperBalance,
        findPaperAccount_insertBotTrade, hacct]
      simp
    · rw [findPaperPosition_updatePaperPositionBuy, findPaperPosition_setPaperBalance,
        findPaperPosition_insertBotTrade, hpos]
      simp
  | none =>
    refine ⟨rfl, ?_, ?_⟩
    · rw [findPaperAccount_insertPaperPosition, findPaperAccount_setPaperBalance,
        findPaperAccount_insertBotTrade, hacct]
      simp
    · unfold findPaperPosition insertPaperPosition
      rw [find?_append_of_none]
      · simp [setPaperBalance, insertBotTrade]
      · exact hpos

/-- The active paper bot used by concrete examples. -/
def exBot : TradingBot :=
  { id := 1, userId := 1, symbol := "BTC", status := "active", mode := "paper" }

/-- A fresh paper store: one active paper bot and a 10,000 balance. -/
def exDb : Db :=
  { tradingBots := [exBot], trades := [], portfolioRows := [],
    paperAccounts := [{ id := 1, userId := 1, balance := 10000 }],
    paperPositions := [], botTrades := [], nextPaperPositionId := 1,
    nextBotTradeId := 1 }

/-- The configuration concrete paper settlements run with. -/
def exCfgBuy : StrategyConfig :=
  { type := StrategyType.MA_CROSSOVER, symbol := "BTC", amount := 1,
    interval := 1000, params := noParams }

/-- The store after buying 1 unit at price 100 from a fresh 10,000 account:
balance 9,900, one position of quantity 1 at average price 100, one recorded
bot trade. -/
def exDb1 : Db :=
  { tradingBots := [exBot], trades := [], portfolioRows := [],
    paperAccounts := [{ id := 1, userId := 1, balance := 9900 }],
    paperPositions := [{ id := 1, accountId := 1, symbol := "BTC", amount := 1,
                         averagePrice := 100 }],
    botTrades := [{ id := 1, botId := 1, symbol := "BTC", type := Signal.buy,
                    amount := 1, price := 100, pnl := none }],
    nextPaperPositionId := 2, nextBotTradeId := 2 }

theorem paper_buy_settlement_witness :
    (executeSignal exDb1 1 exCfgBuy Signal.buy 200 true).2 = none
    ∧ findPaperAccount (executeSignal exDb1 1 exCfgBuy Signal.buy 200 true).1 1 =
        some { id := 1, userId := 1, balance := 9700 }
    ∧ findPaperPosition (executeSignal exDb1 1 exCfgBuy Signal.buy 200 true).1 1 "BTC" =
        some { id := 1, accountId := 1, symbol := "BTC", amount := 2,
               averagePrice := 150 } := by
  have h := paper_buy_settlement exDb1 1 exCfgBuy 200 exBot
    { id := 1, userId := 1, balance := 9900 } (by decide) (by decide) (by decide)
    (by norm_num [exCfgBuy])
  simp only [exCfgBuy] at h ⊢
  norm_num [exDb1, findPaperPosition, List.find?] at h
  exact ⟨h.1, h.2.1, h.2.2⟩

theorem find?_botTrades_patch (l : List BotTrade) (rec : BotTrade) (pnl : ℚ) (n : Nat)
    (hid : rec.id = n)
    (hfresh : ∀ t ∈ l, (t.id == n) = false) :
    ((l ++ [rec]).map (fun t => if t.id == n then { t with pnl := some pnl } else t)).find?
      (fun t => t.id == n) = some { rec with pnl := some pnl } := by
  rw [find?_map_of_pred_eq _ _ _ (fun t => by split <;> rfl)]
  rw [find?_append_of_none _ _ _ (List.find?_eq_none.mpr (fun t ht => by simp [hfresh t ht]))]
  simp [List.find?, hid]

/-- C6: a paper sell with an existing position of sufficient quantity credits
the balance by `tradeValue = amount * currentPrice`, records realized PnL
`(currentPrice - averagePrice) * amount` on the bot-trade row inserted for
this fill, decrements the position quantity by `amount` — deleting the row
when the quantity reaches exactly zero — and leaves the average price of a
surviving row unchanged. -/
theorem paper_sell_settlement (db : Db) (userId : Nat) (config : StrategyConfig)
    (price : ℚ) (bot : TradingBot) (acct : PaperAccount) (pos : PaperPosition)
    (hbot : findActiveBot db userId config.symbol = some bot)
    (hmode : bot.mode = "paper")
    (hacct : findPaperAccount db userId = some acct)
    (hpos : findPaperPosition db acct.id config.symbol = some pos)
    (hqty : ¬ pos.amount < config.amount)
    (hfresh : ∀ t ∈ db.botTrades, (t.id == db.nextBotTradeId) = false)
    (huniq : ∀ p ∈ db.paperPositions,
      (p.accountId == acct.id && p.symbol == config.symbol) = true → p.id = pos.id) :
    (executeSignal db userId config Signal.sell price true).2 = none
    ∧ findPaperAccount (executeSignal db userId config Signal.sell price true).1 userId =
        some { acct with balance := acct.balance + config.amount * price }
    ∧ (executeSignal db userId config Signal.sell price true).1.botTrades.find?
        (fun t => t.id == db.nextBotTradeId) =
      some { id := db.nextBotTradeId, botId := bot.id, symbol := config.symbol,
             type := Signal.sell, amount := config.amount, price := price,
             pnl := some ((price - pos.averagePrice) * config.amount) }
    ∧ findPaperPosition (executeSignal db userId config Signal.sell price true).1
        acct.id config.symbol =
      (if pos.amount - config.amount = 0 then none
       else some { pos with amount := pos.amount - config.amount }) := by
  rw [executeSignal_paper_eq db userId config Signal.sell price true bot acct hbot hmode hacct]
  simp only [paperSettle, findPaperPosition_insertBotTrade, hpos, if_neg hqty]
  by_cases hz : pos.amount - config.amount = 0
  · have hzb : (pos.amount - config.amount == 0) = true := by
      simp [beq_iff_eq, hz]
    simp only [hzb, if_pos, if_true]
    refine ⟨by trivial, ?_, ?_, ?_⟩
    · rw [findPaperAccount_patchLastBotTradePnl, findPaperAccount_deletePaperPosition,
        findPaperAccount_setPaperBalance, findPaperAccount_insertBotTrade, hacct]
      simp
    · simp only [patchLastBotTradePnl, deletePaperPosition, setPaperBalance,
        insertBotTrade, Nat.add_sub_cancel]
      exact find?_botTrades_patch _ _ _ _ rfl hfresh
    · rw [findPaperPosition_patchLastBotTradePnl, if_pos hz]
      unfold findPaperPosition deletePaperPosition
      exact find?_filter_none _ _ _ (fun a ha hka => by
        simp only [setPaperBalance, insertBotTrade] at ha
        simp [huniq a ha hka])
  · have hzb : (pos.amount - config.amount == 0) = false := by
      simp [beq_iff_eq, hz]
    simp only [hzb, Bool.false_eq_true, if_false]
    refine ⟨by trivial, ?_, ?_, ?_⟩
    · rw [findPaperAccount_patchLastBotTradePnl, findPaperAccount_updatePaperPositionSell,
        findPaperAccount_setPaperBalance, findPaperAccount_insertBotTrade, hacct]
      simp
    · simp only [patchLastBotTradePnl, updatePaperPositionSell, setPaperBalance,
        insertBotTrade, Nat.add_sub_cancel]
      exact find?_botTrades_patch _ _ _ _ rfl hfresh
    · rw [findPaperPosition_patchLastBotTradePnl, findPaperPosition_updatePaperPositionSell,
        findPaperPosition_setPaperBalance, findPaperPosition_insertBotTrade, hpos, if_neg hz]
      simp

/-- The store holding quantity 2 at average price 150 and balance 9,700,
the state after the two example buys. -/
def exDb2 : Db :=
  { tradingBots := [exBot], trades := [], portfolioRows := [],
    paperAccounts := [{ id := 1, userId := 1, balance := 9700 }],
    paperPositions := [{ id := 1, accountId := 1, symbol := "BTC", amount := 2,
                         averagePrice := 150 }],
    botTrades := [{ id := 1, botId := 1, symbol := "BTC", type := Signal.buy,
                    amount := 1, price := 100, pnl := none },
                  { id := 2, botId := 1, symbol := "BTC", type := Signal.buy,
                    amount := 1, price := 200, pnl := none }],
    nextPaperPositionId := 2, nextBotTradeId := 3 }

theorem paper_sell_settlement_witness :
    (executeSignal exDb2 1 exCfgBuy Signal.sell 180 true).2 = none
    ∧ findPaperAccount (executeSignal exDb2 1 exCfgBuy Signal.sell 180 true).1 1 =
        some { id := 1, userId := 1, balance := 9880 }
    ∧ (executeSignal exDb2 1 exCfgBuy Signal.sell 180 true).1.botTrades.find?
        (fun t => t.id == 3) =
      some { id := 3, botId := 1, symbol := "BTC", type := Signal.sell,
             amount := 1, price := 180, pnl := some 30 }
    ∧ findPaperPosition (executeSignal exDb2 1 exCfgBuy Signal.sell 180 true).1 1 "BTC" =
        some { id := 1, accountId := 1, symbol := "BTC", amount := 1,
               averagePrice := 150 } := by
  have h := paper_sell_settlement exDb2 1 exCfgBuy 180 exBot
    { id := 1, userId := 1, balance := 9700 }
    { id := 1, accountId := 1, symbol := "BTC", amount := 2, averagePrice := 150 }
    (by decide) (by decide) (by decide) (by decide) (by norm_num [exCfgBuy])
    (by decide) (by decide)
  simp only [exCfgBuy, exDb2] at h ⊢
  norm_num at h
  exact ⟨h.1, h.2.1, h.2.2.1, h.2.2.2⟩

/-- A paper store whose balance (50) cannot cover a buy of 1 unit at 100. -/
def cexDb : Db :=
  { tradingBots := [exBot], trades := [], portfolioRows := [],
    paperAccounts := [{ id := 1, userId := 1, balance := 50 }],
    paperPositions := [], botTrades := [], nextPaperPositionId := 1,
    nextBotTradeId := 1 }

/-- C1 counterexample: a paper buy that fails the sufficiency check does
mutate the persisted trade history — the bot-trade record inserted before the
transaction opened survives the rollback, so the settlement is not free of
partial mutation as claimed. -/
theorem paper_insufficient_cex :
    (executeSignal cexDb 1 exCfgBuy Signal.buy 100 true).2 =
      some "Insufficient paper trading balance"
    ∧ (executeSignal cexDb 1 exCfgBuy Signal.buy 100 true).1.botTrades ≠
        cexDb.botTrades := by
  constructor
  · rw [executeSignal_paper_eq cexDb 1 exCfgBuy Signal.buy 100 true exBot
      { id := 1, userId := 1, balance := 50 } (by decide) (by decide) (by decide)]
    simp only [paperSettle, findPaperPosition_insertBotTrade]
    rw [if_pos (by norm_num [exCfgBuy])]
  · rw [executeSignal_paper_eq cexDb 1 exCfgBuy Signal.buy 100 true exBot
      { id := 1, userId := 1, balance := 50 } (by decide) (by decide) (by decide)]
    simp only [paperSettle, findPaperPosition_insertBotTrade]
    rw [if_pos (by norm_num [exCfgBuy])]
    simp [insertBotTrade, cexDb]

/-- C1 (amended): a paper settlement that fails its sufficiency check aborts
with the paper account rows and the paper position rows exactly as before,
but the bot-trade record inserted before the transaction opened persists:
the trade history gains exactly that one record. -/
theorem paper_insufficient_aborts (db : Db) (userId : Nat) (config : StrategyConfig)
    (signal : Signal) (price : ℚ) (bot : TradingBot) (acct : PaperAccount)
    (hbot : findActiveBot db userId config.symbol = some bot)
    (hmode : bot.mode = "paper")
    (hacct : findPaperAccount db userId = some acct)
    (hfail : match signal with
      | Signal.buy => acct.balance < config.amount * price
      | Signal.sell => ∀ pos, findPaperPosition db acct.id config.symbol = some pos →
          pos.amount < config.amount) :
    (executeSignal db userId config signal price true).2.isSome = true
    ∧ (executeSignal db userId config signal price true).1.paperAccounts =
        db.paperAccounts
    ∧ (executeSignal db userId config signal price true).1.paperPositions =
        db.paperPositions
    ∧ (executeSignal db userId config signal price true).1.botTrades =
        db.botTrades ++
          [{ id := db.nextBotTradeId, botId := bot.id, symbol := config.symbol,
             type := signal, amount := config.amount, price := price, pnl := none }] := by
  rw [executeSignal_paper_eq db userId config signal price true bot acct hbot hmode hacct]
  cases signal with
  | buy =>
    simp only [paperSettle, findPaperPosition_insertBotTrade, if_pos hfail]
    exact ⟨rfl, rfl, rfl, rfl⟩
  | sell =>
    simp only [paperSettle, findPaperPosition_insertBotTrade]
    cases hpos : findPaperPosition db acct.id config.symbol with
    | none => exact ⟨rfl, rfl, rfl, rfl⟩
    | some pos =>
      simp only [if_pos (hfail pos hpos)]
      exact ⟨rfl, rfl, rfl, rfl⟩

theorem paper_insufficient_aborts_witness :
    (executeSignal cexDb 1 exCfgBuy Signal.buy 100 true).2.isSome = true
    ∧ (executeSignal cexDb 1 exCfgBuy Signal.buy 100 true).1.paperAccounts =
        cexDb.paperAccounts
    ∧ (executeSignal cexDb 1 exCfgBuy Signal.buy 100 true).1.paperPositions =
        cexDb.paperPositions
    ∧ (executeSignal cexDb 1 exCfgBuy Signal.buy 100 true).1.botTrades =
        cexDb.botTrades ++
          [{ id := cexDb.nextBotTradeId, botId := exBot.id, symbol := exCfgBuy.symbol,
             type := Signal.buy, amount := exCfgBuy.amount, price := 100,
             pnl := none }] :=
  paper_insufficient_aborts cexDb 1 exCfgBuy Signal.buy 100 exBot
    { id := 1, userId := 1, balance := 50 } (by decide) (by decide) (by decide)
    (by norm_num [exCfgBuy])

theorem findActiveBot_insertTrade (db : Db) (u : Nat) (s : String) (a p : ℚ)
    (t : Signal) (userId : Nat) (symbol : String) :
    findActiveBot (insertTrade db u s a p t) userId symbol = findActiveBot db userId symbol := rfl

theorem findActiveBot_insertPortfolioPosition (db : Db) (u : Nat) (s : String) (a : ℚ)
    (userId : Nat) (symbol : String) :
    findActiveBot (insertPortfolioPosition db u s a) userId symbol =
      findActiveBot db userId symbol := rfl

theorem findPortfolioPosition_insertTrade (db : Db) (u : Nat) (s : String) (a p : ℚ)
    (t : Signal) (userId : Nat) (symbol : String) :
    findPortfolioPosition (insertTrade db u s a p t) userId symbol =
      findPortfolioPosition db userId symbol := rfl

/-- If the settlement resolved a bot in live mode, the Settlement Engine
continues into `liveSettle`. -/
theorem executeSignal_live_eq (db : Db) (userId : Nat) (config : StrategyConfig)
    (signal : Signal) (price : ℚ) (orderOk : Bool) (bot : TradingBot)
    (hbot : findActiveBot db userId config.symbol = some bot)
    (hmode : bot.mode = "live") :
    executeSignal db userId config signal price orderOk =
      liveSettle db userId config signal price orderOk := by
  unfold executeSignal
  rw [hbot]
  simp [hmode]

/-- C7: in live mode, a buy of quantity `n` from no existing position row
followed by a sell of quantity `n` of the same symbol leaves no position row
for that user and symbol — the row is deleted when the quantity reaches
exactly zero rather than kept at quantity 0. -/
theorem live_round_trip (db : Db) (userId : Nat) (config : StrategyConfig)
    (p1 p2 : ℚ) (bot : TradingBot)
    (hbot : findActiveBot db userId config.symbol = some bot)
    (hmode : bot.mode = "live")
    (hpos : findPortfolioPosition db userId config.symbol = none) :
    findPortfolioPosition
      (executeSignal (executeSignal db userId config Signal.buy p1 true).1
        userId config Signal.sell p2 true).1 userId config.symbol = none := by
  have hpos' : db.portfolioRows.find?
      (fun p => p.userId == userId && p.symbol == config.symbol) = none := hpos
  rw [executeSignal_live_eq db userId config Signal.buy p1 true bot hbot hmode]
  simp only [liveSettle, Bool.not_true, Bool.false_eq_true, if_false,
    findPortfolioPosition_insertTrade, hpos, beq_self_eq_true, if_true]
  rw [executeSignal_live_eq _ userId config Signal.sell p2 true bot
    (by rw [findActiveBot_insertPortfolioPosition, findActiveBot_insertTrade]; exact hbot)
    hmode]
  simp only [liveSettle, Bool.not_true, Bool.false_eq_true, if_false,
    findPortfolioPosition_insertTrade]
  have hfound : findPortfolioPosition
      (insertPortfolioPosition (insertTrade db userId config.symbol config.amount p1
        Signal.buy) userId config.symbol config.amount) userId config.symbol =
      some { userId := userId, symbol := config.symbol, amount := config.amount } := by
    simp only [findPortfolioPosition, insertPortfolioPosition, insertTrade]
    rw [find?_append_of_none _ _ _ hpos']
    simp [List.find?]
  have hsb : (Signal.sell == Signal.buy) = false := rfl
  have hz : (config.amount +
      (if (Signal.sell == Signal.buy) = true then (1 : ℚ) else -1) * config.amount == 0) =
      true := by
    rw [hsb]
    simp only [Bool.false_eq_true, if_false, beq_iff_eq]
    simp only [neg_mul, one_mul, add_neg_cancel, decide_eq_true_eq]
  simp only [hfound, hz, if_true]
  unfold findPortfolioPosition deletePortfolioPosition
  exact find?_filter_none _ _ _ (fun a _ hp => by simp [hp])

/-- An active live-mode bot for the C7 witness. -/
def liveBot : TradingBot :=
  { id := 2, userId := 1, symbol := "ETH", status := "active", mode := "live" }

/-- A live store with no position rows. -/
def liveDb : Db :=
  { tradingBots := [liveBot], trades := [], portfolioRows := [],
    paperAccounts := [], paperPositions := [], botTrades := [],
    nextPaperPositionId := 1, nextBotTradeId := 1 }

/-- A live configuration trading 5 units of ETH. -/
def liveCfg : StrategyConfig :=
  { type := StrategyType.MA_CROSSOVER, symbol := "ETH", amount := 5,
    interval := 1000, params := noParams }

theorem live_round_trip_witness :
    findPortfolioPosition
      (executeSignal (executeSignal liveDb 1 liveCfg Signal.buy 10 true).1
        1 liveCfg Signal.sell 12 true).1 1 "ETH" = none :=
  live_round_trip liveDb 1 liveCfg 10 12 liveBot (by decide) (by decide) (by decide)

/-- A paper store with balance 100: enough for one buy of 1 unit at 100,
not for two. -/
def c9Db : Db :=
  { tradingBots := [exBot], trades := [], portfolioRows := [],
    paperAccounts := [{ id := 1, userId := 1, balance := 100 }],
    paperPositions := [], botTrades := [], nextPaperPositionId := 1,
    nextBotTradeId := 1 }

/-- C9: the sufficiency check and the balance write are not inside one atomic
transaction with the account read. Two concurrent paper buys of 1 unit at
price 100 against a balance of 100, interleaved so that both pre-transaction
account reads happen before either transaction commits, BOTH succeed: the
final balance is 0 (not -100 — each write sets the balance computed from its
stale read) while the position grows to 2 units worth 200. Under the claimed
single-transaction semantics the second buy would have failed with
insufficient balance. -/
theorem paper_check_write_not_atomic :
    (interleavedPaperBuys c9Db 1 exCfgBuy 100).2.1 = none
    ∧ (interleavedPaperBuys c9Db 1 exCfgBuy 100).2.2 = none
    ∧ findPaperAccount (interleavedPaperBuys c9Db 1 exCfgBuy 100).1 1 =
        some { id := 1, userId := 1, balance := 0 }
    ∧ findPaperPosition (interleavedPaperBuys c9Db 1 exCfgBuy 100).1 1 "BTC" =
        some { id := 1, accountId := 1, symbol := "BTC", amount := 2,
               averagePrice := 100 } := by
  have h1 : findActiveBot c9Db 1 exCfgBuy.symbol = some exBot := by decide
  have h2 : findPaperAccount c9Db 1 = some { id := 1, userId := 1, balance := 100 } := by
    decide
  simp only [interleavedPaperBuys, h1, h2]
  norm_num [paperSettle, findPaperAccount, findPaperPosition, insertBotTrade,
    setPaperBalance, insertPaperPosition, updatePaperPositionBuy,
    patchLastBotTradePnl, c9Db, exBot, exCfgBuy, List.find?]

theorem SMA_length (p : Nat) (v : List ℚ) :
    (SMA_calculate p v).length = v.length + 1 - p := by
  simp [SMA_calculate]

theorem jsGet_SMA (p : Nat) (v : List ℚ) (i : Int) (k : Nat)
    (hik : i = (k : Int)) (hk : k < v.length + 1 - p) :
    jsGet (SMA_calculate p v) i = some (windowMeanAt v p k) := by
  subst hik
  unfold jsGet
  have hcond : 0 ≤ ((k : Nat) : Int) ∧ (((k : Nat) : Int)).toNat < (SMA_calculate p v).length := by
    refine ⟨by omega, ?_⟩
    simpa [SMA_length] using hk
  rw [dif_pos hcond]
  simp [SMA_calculate]

theorem jslt_some (a b : ℚ) : jslt (some a) (some b) = decide (a < b) := rfl

theorem jsgt_some (a b : ℚ) : jsgt (some a) (some b) = decide (b < a) := rfl

/-- C4 (amended): for the moving-average crossover strategy with enough
history (strictly more samples than the long period), the evaluator emits
`buy` exactly when the short average was strictly below the long average at
the previous point and is strictly above it at the latest point, emits
`sell` exactly on the reverse strict transition, and emits no signal
otherwise — in particular a transition that starts from equality of the two
averages emits no signal. -/
theorem ma_crossover_strict (s : StrategyState) (p q : Nat)
    (htype : s.config.type = StrategyType.MA_CROSSOVER)
    (hpdef : s.config.params.shortPeriod.getD 10 = p)
    (hqdef : s.config.params.longPeriod.getD 20 = q)
    (hpq : p ≤ q) (hn : q < s.priceHistory.length) :
    evaluateStrategy s =
      (if windowMeanAt (s.priceHistory.map (fun x => x.price)) p
            (s.priceHistory.length - p - 1) <
          windowMeanAt (s.priceHistory.map (fun x => x.price)) q
            (s.priceHistory.length - q - 1)
        ∧ windowMeanAt (s.priceHistory.map (fun x => x.price)) q
            (s.priceHistory.length - q) <
          windowMeanAt (s.priceHistory.map (fun x => x.price)) p
            (s.priceHistory.length - p) then
        some Signal.buy
      else if windowMeanAt (s.priceHistory.map (fun x => x.price)) q
            (s.priceHistory.length - q - 1) <
          windowMeanAt (s.priceHistory.map (fun x => x.price)) p
            (s.priceHistory.length - p - 1)
        ∧ windowMeanAt (s.priceHistory.map (fun x => x.price)) p
            (s.priceHistory.length - p) <
          windowMeanAt (s.priceHistory.map (fun x => x.price)) q
            (s.priceHistory.length - q) then
        some Signal.sell
      else none) := by
  have hvlen : (s.priceHistory.map (fun x => x.price)).length = s.priceHistory.length :=
    List.length_map _ _
  have e1 : jsGet (SMA_calculate p (s.priceHistory.map (fun x => x.price)))
      (((SMA_calculate p (s.priceHistory.map (fun x => x.price))).length : Int) - 1) =
      some (windowMeanAt (s.priceHistory.map (fun x => x.price)) p
        (s.priceHistory.length - p)) := by
    apply jsGet_SMA
    · rw [SMA_length, hvlen]; omega
    · rw [hvlen]; omega
  have e2 : jsGet (SMA_calculate p (s.priceHistory.map (fun x => x.price)))
      (((SMA_calculate p (s.priceHistory.map (fun x => x.price))).length : Int) - 2) =
      some (windowMeanAt (s.priceHistory.map (fun x => x.price)) p
        (s.priceHistory.length - p - 1)) := by
    apply jsGet_SMA
    · rw [SMA_length, hvlen]; omega
    · rw [hvlen]; omega
  have e3 : jsGet (SMA_calculate q (s.priceHistory.map (fun x => x.price)))
      (((SMA_calculate q (s.priceHistory.map (fun x => x.price))).length : Int) - 1) =
      some (windowMeanAt (s.priceHistory.map (fun x => x.price)) q
        (s.priceHistory.length - q)) := by
    apply jsGet_SMA
    · rw [SMA_length, hvlen]; omega
    · rw [hvlen]; omega
  have e4 : jsGet (SMA_calculate q (s.priceHistory.map (fun x => x.price)))
      (((SMA_calculate q (s.priceHistory.map (fun x => x.price))).length : Int) - 2) =
      some (windowMeanAt (s.priceHistory.map (fun x => x.price)) q
        (s.priceHistory.length - q - 1)) := by
    apply jsGet_SMA
    · rw [SMA_length, hvlen]; omega
    · rw [hvlen]; omega
  unfold evaluateStrategy
  rw [htype]
  show maCrossoverSignal s.config.params (s.priceHistory.map (fun x => x.price)) = _
  simp only [maCrossoverSignal, hpdef, hqdef]
  rw [if_neg (by rw [hvlen]; omega)]
  rw [e1, e2, e3, e4]
  simp only [jslt_some, jsgt_some, Bool.and_eq_true, decide_eq_true_eq]

/-- The moving-average state of the C4 counterexample: short period 1, long
period 2, prices 1, 1, 3. -/
def cexMAParams : StrategyParams :=
  { noParams with shortPeriod := some 1, longPeriod := some 2 }

def cexMAConfig : StrategyConfig :=
  { type := StrategyType.MA_CROSSOVER, symbol := "BTC", amount := 1,
    interval := 1000, params := cexMAParams }

def cexMAState : StrategyState :=
  { config := cexMAConfig, isActive := true, lastCheck := 0,
    priceHistory := [{ timestamp := 0, price := 1 }, { timestamp := 1, price := 1 },
                     { timestamp := 2, price := 3 }] }

/-- C4 counterexample: on prices 1, 1, 3 with short period 1 and long period
2 the previous short and long averages are equal (both 1) and the current
short average (3) is above the current long average (2) — the claimed
short-to-long transition starting from equality — yet the evaluator emits no
signal, because the source requires the previous short average to be
strictly below the long one. -/
theorem ma_equality_no_signal_cex :
    evaluateStrategy cexMAState = none
    ∧ windowMeanAt [1, 1, 3] 1 1 = windowMeanAt [1, 1, 3] 2 0
    ∧ windowMeanAt [1, 1, 3] 2 1 < windowMeanAt [1, 1, 3] 1 2 := by
  refine ⟨?_, by norm_num [windowMeanAt], by norm_num [windowMeanAt]⟩
  have hr3 : List.range 3 = [0, 1, 2] := rfl
  have hr2 : List.range 2 = [0, 1] := rfl
  have hS : SMA_calculate 1 [1, 1, 3] = [1, 1, 3] := by
    norm_num [SMA_calculate, windowMeanAt, hr3]
  have hL : SMA_calculate 2 [1, 1, 3] = [1, 2] := by
    norm_num [SMA_calculate, windowMeanAt, hr2]
  show maCrossoverSignal cexMAParams [1, 1, 3] = none
  norm_num [maCrossoverSignal, cexMAParams, noParams, hS, hL, jsGet, jslt, jsgt]

/-- A state with a strict short-below-to-above transition (prices 3, 1, 3,
short period 1, long period 2), used by the C4 witness. -/
def witMAState : StrategyState :=
  { config := cexMAConfig, isActive := true, lastCheck := 0,
    priceHistory := [{ timestamp := 0, price := 3 }, { timestamp := 1, price := 1 },
                     { timestamp := 2, price := 3 }] }

theorem ma_crossover_strict_witness :
    evaluateStrategy witMAState = some Signal.buy := by
  have h := ma_crossover_strict witMAState 1 2 rfl rfl rfl (by norm_num)
    (by norm_num [witMAState])
  rw [h]
  norm_num [witMAState, windowMeanAt]
